import Mathlib

/-!
Shallow embedding of the expense-tracker webhook service
(`src/api/index.py`) and proofs about its specification.

Modelling conventions:
* Python `float` values are modelled by `ℚ`; all amount strings in the
  repository are plain decimal strings, for which the conversion is exact.
* Network collaborators (Telegram download, Gemini extraction, Appwrite
  store) are oracles supplied in an `Oracles` record; each call either
  returns a value or raises a `Fault`, mirroring a Python exception.
* Side effects (outbound chat messages, document creations, file
  downloads, extraction calls) are collected in an `Effects` log.
* Python dict/key access is modelled with `Option`: a missing key read
  with `[...]` raises `Fault.keyError`, one read with `.get` yields a
  default.
-/

set_option maxRecDepth 8000

attribute [local semireducible] Rat.mul Rat.add Rat.sub Rat.inv

deriving instance DecidableEq for Except

namespace ExpenseTracker

/-- `MAX_FILE_SIZE_BYTES = 5 * 1024 * 1024` (index.py line 28). -/
def MAX_FILE_SIZE_BYTES : Nat := 5 * 1024 * 1024

/-- `MAX_TEXT_CHARS = 500` (index.py line 29). -/
def MAX_TEXT_CHARS : Nat := 500

/-- The closed category vocabulary of the system instruction
(index.py line 44), excluding the ERROR sentinel. -/
def sevenCategories : List String :=
  [("Food"), ("Travel"), ("Study"), ("Shopping"), ("Utility"), ("Subscription"), ("Other")]

/-- A Telegram photo variant or document: optional declared byte size and
a file handle (`file_size`, `file_id`). -/
structure PhotoData where
  file_size : Option Nat
  file_id : String
deriving DecidableEq

/-- The parts of a Telegram `message` object that the handler reads.
`chat_id` stands for `message['chat']['id']` and `from_user_id` for
`message['from']['id']`; both raise `KeyError` when absent. -/
structure TgMessage where
  chat_id : Option Int
  from_user_id : Option Int
  text : Option String
  photo : Option (List PhotoData)
  document : Option PhotoData
  caption : Option String
deriving DecidableEq

/-- An inbound webhook update: it may or may not carry a `message`. -/
structure Update where
  message : Option TgMessage
deriving DecidableEq

/-- A prompt part passed to the extraction engine: raw image bytes
(content abstracted away) or a text string. -/
inductive GPart where
  | image
  | text (s : String)
deriving DecidableEq

/-- The JSON object returned by `extract_expense_details`; each field is
optional because the model output is a dict whose keys may be absent. -/
structure ExtractedDict where
  Category : Option String
  Description : Option String
  Amount : Option String
deriving DecidableEq

/-- The record passed to `appwrite_db.create_document`
(index.py lines 240-246). -/
structure ExpenseData where
  telegram_user_id : Int
  category : String
  description : String
  amount : ℚ
  created_at : String
deriving DecidableEq

/-- A stored expense document as read back in `generate_report`
(`exp['amount']`, `exp['category']`). -/
structure StoredExpense where
  amount : ℚ
  category : String
deriving DecidableEq

/-- Python exceptions that the embedded code can raise. -/
inductive Fault where
  | keyError (k : String)
  | indexError
  | valueError (s : String)
  | zeroDivisionError
  | exn (name detail : String)
deriving DecidableEq

/-- `type(e).__name__` of a fault. -/
def faultName : Fault → String
  | Fault.keyError _ => ("KeyError")
  | Fault.indexError => ("IndexError")
  | Fault.valueError _ => ("ValueError")
  | Fault.zeroDivisionError => ("ZeroDivisionError")
  | Fault.exn n _ => n

/-- `str(e)` of a fault (quotes around the offending literal omitted). -/
def faultStr : Fault → String
  | Fault.keyError k => k
  | Fault.indexError => ("list index out of range")
  | Fault.valueError s => ("could not convert string to float: ") ++ s
  | Fault.zeroDivisionError => ("float division by zero")
  | Fault.exn _ d => d

/-- Outbound chat messages, one constructor per `send_telegram_message`
call site, carrying the data interpolated into the f-string. -/
inductive OutMsg where
  | welcome
  | fileTooLarge (size : Nat)
  | textTooLong (n limit : Nat)
  | captionTooLong (n limit : Nat)
  | inputError
  | downloadError (detail : String)
  | extractionFailed (detail : String)
  | expenseSaved (category : String) (amount : ℚ) (description : String)
  | noExpenses (period : String)
  | report (period : String) (total : ℚ) (lines : List (String × ℚ × ℚ))
  | reportError (detail : String)
deriving DecidableEq

/-- The JSON acknowledgment body returned to the transport: always a dict
with a `status` key (index.py lines 140, 163, 181, ..., 269, 271). -/
inductive Ack where
  | ok
  | error (message : String)
deriving DecidableEq

/-- The acknowledgment rendered as a JSON object (key-value list). -/
def ackBody : Ack → List (String × String)
  | Ack.ok => [(("status"), ("ok"))]
  | Ack.error m => [(("status"), ("error")), (("message"), m)]

/-- Log of side effects performed while handling one update. -/
structure Effects where
  msgs : List OutMsg
  creates : List ExpenseData
  downloads : List String
  extracts : List (List GPart)
deriving DecidableEq

def Effects.empty : Effects := ⟨[], [], [], []⟩

/-- External collaborators, as oracles.  `list_documents` abstracts the
Appwrite query (its user/time filters do not affect any claim). -/
structure Oracles where
  download_telegram_file : String → Except Fault Unit
  extract_expense_details : List GPart → Except Fault ExtractedDict
  create_document : ExpenseData → Except Fault Unit
  list_documents : Except Fault (List StoredExpense)
  today : Nat × Nat × Nat
  current_time : String

/-! ### Python `float()` on decimal strings -/

/-- Value of a list of decimal digit characters. -/
def digitsVal (ds : List Char) : Nat :=
  ds.foldl (fun n c => 10 * n + (c.toNat - 48)) 0

/-- `float(s)` for plain decimal strings: optional sign, digits, optional
single decimal point.  Returns `none` where Python raises `ValueError`.
(Exponent, infinity and nan forms, which never occur in this system's
amount strings, are out of scope and rejected.) -/
def pyFloat? (s : String) : Option ℚ :=
  let signed : ℚ × List Char :=
    match s.data with
    | '-' :: rest => (-1, rest)
    | '+' :: rest => (1, rest)
    | cs => (1, cs)
  let sign := signed.1
  let body := signed.2
  let intDigits := body.takeWhile Char.isDigit
  let rest := body.dropWhile Char.isDigit
  match rest with
  | [] => if intDigits.isEmpty then none else some (sign * (digitsVal intDigits : ℚ))
  | '.' :: fracDigits =>
    if fracDigits.all Char.isDigit && !(intDigits.isEmpty && fracDigits.isEmpty) then
      some (sign * ((digitsVal intDigits : ℚ) +
        (digitsVal fracDigits : ℚ) / (10 : ℚ) ^ fracDigits.length))
    else none
  | _ => none

/-! ### Calendar model and `get_query_time_range` -/

/-- `True` for Gregorian leap years. -/
def isLeapYear (y : Nat) : Bool :=
  (y % 4 == 0 && y % 100 != 0) || y % 400 == 0

/-- Days in month `m` of year `y`. -/
def daysInMonth (y m : Nat) : Nat :=
  if m = 2 then (if isLeapYear y then 29 else 28)
  else if m = 4 ∨ m = 6 ∨ m = 9 ∨ m = 11 then 30
  else 31

/-- Days in year `y` before the first day of month `m`. -/
def daysBeforeMonth (y m : Nat) : Nat :=
  (List.range (m - 1)).foldl (fun s i => s + daysInMonth y (i + 1)) 0

/-- Python `date(y, m, d).toordinal()`: day count in the proleptic
Gregorian calendar with ordinal 1 = 0001-01-01 (a Monday). -/
def toOrdinal : Nat × Nat × Nat → Nat
  | (y, m, d) =>
    365 * (y - 1) + (y - 1) / 4 - (y - 1) / 100 + (y - 1) / 400 + daysBeforeMonth y m + d

/-- Python `date.weekday()` on an ordinal: 0 = Monday. -/
def weekday (d : Nat) : Nat := (d - 1) % 7

/-- A Python `datetime`: ordinal date plus microseconds since midnight. -/
structure PyDateTime where
  days : Nat
  micros : Nat
deriving DecidableEq

/-- Microseconds of `datetime.max.time()` = 23:59:59.999999. -/
def datetime_max_micros : Nat := 86399999999

/-- `get_query_time_range` (index.py lines 101-121), up to ISO-8601
serialization: the `(start_date, end_date)` pair it computes before
appending the Z suffix.  The unknown-selector branch recurses with
`/daily`; that call is unfolded here. -/
def get_query_time_range (today : Nat × Nat × Nat) (command : String) :
    PyDateTime × PyDateTime :=
  let t := toOrdinal today
  if command = "/daily" then (⟨t, 0⟩, ⟨t, datetime_max_micros⟩)
  else if command = "/week" then (⟨t - weekday t, 0⟩, ⟨t, datetime_max_micros⟩)
  else if command = "/month" then
    (⟨toOrdinal (today.1, today.2.1, 1), 0⟩, ⟨t, datetime_max_micros⟩)
  else (⟨t, 0⟩, ⟨t, datetime_max_micros⟩)

/-- Python `str.startswith(p)`: the characters of `p` are a prefix of
the characters of `s`. -/
def pyStartsWith (s p : String) : Bool := p.data.isPrefixOf s.data

/-- Python `str.lower()`: every character lower-cased. -/
def pyLower (s : String) : String := String.mk (s.data.map Char.toLower)

/-- Python `str.capitalize()`: first character upper-cased, rest
lower-cased (`command[1:].capitalize()` uses only ASCII input here). -/
def capitalize (s : String) : String :=
  match s.data with
  | [] => s
  | c :: rest => String.mk (c.toUpper :: rest.map Char.toLower)

/-! ### Report aggregation (`generate_report`, index.py lines 275-326) -/

/-- `total_spent` accumulated over the expense loop (index.py 303-309). -/
def total_spent_of (expenses : List StoredExpense) : ℚ :=
  expenses.foldl (fun t exp => t + exp.amount) 0

/-- One step of `category_totals[category] = category_totals.get(category, 0.0) + amount`
on an insertion-ordered association list (a Python dict). -/
def addToTotals : List (String × ℚ) → String → ℚ → List (String × ℚ)
  | [], c, a => [(c, a)]
  | (c', v) :: rest, c, a =>
    if c' = c then (c', v + a) :: rest else (c', v) :: addToTotals rest c a

/-- `category_totals` accumulated over the expense loop. -/
def category_totals_of (expenses : List StoredExpense) : List (String × ℚ) :=
  expenses.foldl (fun m exp => addToTotals m exp.category exp.amount) []

/-- Comparison used by `sorted(..., key=lambda item: item[1], reverse=True)`:
descending accumulated sum. -/
def descBySum (p q : String × ℚ) : Prop := q.2 ≤ p.2

instance : DecidableRel descBySum :=
  fun p q => inferInstanceAs (Decidable (q.2 ≤ p.2))

instance : IsTotal (String × ℚ) descBySum := ⟨fun a b => le_total b.2 a.2⟩

instance : IsTrans (String × ℚ) descBySum := ⟨fun _ _ _ h1 h2 => le_trans h2 h1⟩

/-- The aggregation core of `generate_report` (index.py lines 302-319):
total, then per-category lines `(category, subtotal, percentage)` in
descending subtotal order (Python `sorted` is a stable sort, modelled by
insertion sort with the same comparison).  The percentage division
`(total / total_spent) * 100` raises `ZeroDivisionError` when the loop
runs with `total_spent == 0`. -/
def report_core (expenses : List StoredExpense) :
    Except Fault (ℚ × List (String × ℚ × ℚ)) :=
  let total_spent := total_spent_of expenses
  let category_totals := category_totals_of expenses
  if category_totals ≠ [] ∧ total_spent = 0 then Except.error Fault.zeroDivisionError
  else
    Except.ok (total_spent,
      (category_totals.insertionSort descBySum).map
        (fun p => (p.1, p.2, p.2 / total_spent * 100)))

/-- `generate_report` (index.py lines 275-326).  Its own try/except turns
any store or aggregation fault into a report-error chat message, and the
function always returns the ok acknowledgment. -/
def generate_report (env : Oracles) (command : String) : Effects × Ack :=
  let _times := get_query_time_range env.today command
  let time_period := capitalize (command.drop 1)
  match env.list_documents with
  | Except.error e => (⟨[OutMsg.reportError (faultStr e)], [], [], []⟩, Ack.ok)
  | Except.ok expenses =>
    if expenses = [] then (⟨[OutMsg.noExpenses time_period], [], [], []⟩, Ack.ok)
    else
      match report_core expenses with
      | Except.error e => (⟨[OutMsg.reportError (faultStr e)], [], [], []⟩, Ack.ok)
      | Except.ok (total_spent, lines) =>
        (⟨[OutMsg.report time_period total_spent lines], [], [], []⟩, Ack.ok)

/-! ### Webhook handler (`handle_telegram_webhook`, index.py lines 132-271) -/

/-- The default prompt appended when an attachment has no caption
(index.py line 227). -/
def defaultPrompt : String := "Extract expense details from this bill or receipt image."

/-- Lines 232-263: call the extraction engine, check the ERROR sentinel,
build `expense_data` (reading `Category`, `Description`, `Amount` with
`[...]`, so a missing key raises `KeyError`, and converting the amount
with `float(...)`, which raises `ValueError` on an unparseable string),
persist it, and send the confirmation. -/
def extract_and_save (env : Oracles) (user_id : Int) (current_time : String)
    (gemini_parts : List GPart) : Effects × Except Fault Ack :=
  match env.extract_expense_details gemini_parts with
  | Except.error e => (⟨[], [], [], [gemini_parts]⟩, Except.error e)
  | Except.ok extracted_data =>
    if extracted_data.Category = some ("ERROR") then
      (⟨[OutMsg.extractionFailed (extracted_data.Description.getD ("N/A"))],
        [], [], [gemini_parts]⟩, Except.ok Ack.ok)
    else
      match extracted_data.Category with
      | none => (⟨[], [], [], [gemini_parts]⟩, Except.error (Fault.keyError ("Category")))
      | some category =>
      match extracted_data.Description with
      | none => (⟨[], [], [], [gemini_parts]⟩, Except.error (Fault.keyError ("Description")))
      | some description =>
      match extracted_data.Amount with
      | none => (⟨[], [], [], [gemini_parts]⟩, Except.error (Fault.keyError ("Amount")))
      | some amount_s =>
      match pyFloat? amount_s with
      | none => (⟨[], [], [], [gemini_parts]⟩, Except.error (Fault.valueError amount_s))
      | some amount =>
        let expense_data : ExpenseData :=
          { telegram_user_id := user_id, category := category,
            description := description, amount := amount, created_at := current_time }
        match env.create_document expense_data with
        | Except.error e => (⟨[], [expense_data], [], [gemini_parts]⟩, Except.error e)
        | Except.ok _ =>
          (⟨[OutMsg.expenseSaved category amount description],
            [expense_data], [], [gemini_parts]⟩, Except.ok Ack.ok)

/-- Lines 213-230, the `if file_id:` block: download the file (its own
try/except turns a download fault into a chat message), then append the
caption after checking its length, or the default prompt, and continue
with extraction. -/
def process_file (env : Oracles) (user_id : Int) (current_time : String)
    (file_id : String) (caption_text : Option String) : Effects × Except Fault Ack :=
  match env.download_telegram_file file_id with
  | Except.error e =>
    (⟨[OutMsg.downloadError (faultStr e)], [], [file_id], []⟩, Except.ok Ack.ok)
  | Except.ok _ =>
    match caption_text with
    | some caption =>
      if caption.length > MAX_TEXT_CHARS then
        (⟨[OutMsg.captionTooLong caption.length MAX_TEXT_CHARS], [], [file_id], []⟩,
          Except.ok Ack.ok)
      else
        let r := extract_and_save env user_id current_time [GPart.image, GPart.text caption]
        ({ r.1 with downloads := file_id :: r.1.downloads }, r.2)
    | none =>
      let r := extract_and_save env user_id current_time
        [GPart.image, GPart.text defaultPrompt]
      ({ r.1 with downloads := file_id :: r.1.downloads }, r.2)

/-- Lines 168-230, section B: dispatch on photo / document / text / none,
with the file-size and text-length checks.  `message['photo'][-1]` on an
empty photo array raises `IndexError`. -/
def expense_input_branch (env : Oracles) (message : TgMessage) (user_id : Int)
    (current_time : String) : Effects × Except Fault Ack :=
  match message.photo with
  | some photos =>
    match photos.getLast? with
    | none => (Effects.empty, Except.error Fault.indexError)
    | some photo_data =>
      if photo_data.file_size.getD 0 > MAX_FILE_SIZE_BYTES then
        (⟨[OutMsg.fileTooLarge (photo_data.file_size.getD 0)], [], [], []⟩, Except.ok Ack.ok)
      else process_file env user_id current_time photo_data.file_id message.caption
  | none =>
    match message.document with
    | some doc_data =>
      if doc_data.file_size.getD 0 > MAX_FILE_SIZE_BYTES then
        (⟨[OutMsg.fileTooLarge (doc_data.file_size.getD 0)], [], [], []⟩, Except.ok Ack.ok)
      else process_file env user_id current_time doc_data.file_id message.caption
    | none =>
      match message.text with
      | some text_input =>
        if text_input.length > MAX_TEXT_CHARS then
          (⟨[OutMsg.textTooLong text_input.length MAX_TEXT_CHARS], [], [], []⟩,
            Except.ok Ack.ok)
        else extract_and_save env user_id current_time [GPart.text text_input]
      | none => (⟨[OutMsg.inputError], [], [], []⟩, Except.ok Ack.ok)

/-- The body of the top-level `try` (index.py lines 136-263): updates
without a message are acknowledged silently; slash-prefixed text goes to
command handling, where `/start` answers the welcome message, the three
report commands delegate to `generate_report`, and any other command
falls through to section B. -/
def webhook_body (env : Oracles) (update : Update) : Effects × Except Fault Ack :=
  match update.message with
  | none => (Effects.empty, Except.ok Ack.ok)
  | some message =>
    match message.chat_id with
    | none => (Effects.empty, Except.error (Fault.keyError ("chat")))
    | some _chat_id =>
    match message.from_user_id with
    | none => (Effects.empty, Except.error (Fault.keyError ("from")))
    | some user_id =>
      let current_time := env.current_time
      match message.text with
      | some t =>
        if pyStartsWith t ("/") then
          let command := pyLower t
          if command = "/start" then (⟨[OutMsg.welcome], [], [], []⟩, Except.ok Ack.ok)
          else if command = "/daily" ∨ command = "/week" ∨ command = "/month" then
            let r := generate_report env command
            (r.1, Except.ok r.2)
          else expense_input_branch env message user_id current_time
        else expense_input_branch env message user_id current_time
      | none => expense_input_branch env message user_id current_time

/-- `handle_telegram_webhook` (index.py lines 132-271): the top-level
try/except converts any fault into the error acknowledgment, sending no
further chat message. -/
def handle_telegram_webhook (env : Oracles) (update : Update) : Effects × Ack :=
  match webhook_body env update with
  | (eff, Except.ok a) => (eff, a)
  | (eff, Except.error e) =>
    (eff, Ack.error (("An unexpected error occurred: ") ++ faultName e ++ (": ") ++ faultStr e))

/-- Rendering of outbound messages (Markdown decoration and emoji
omitted), faithful to the interpolated data of each f-string. -/
def renderMsg : OutMsg → String
  | OutMsg.welcome => ("Welcome to your AI Expense Tracker!")
  | OutMsg.fileTooLarge _ =>
      ("File Too Large! The uploaded file size exceeds the limit of 5 MB.")
  | OutMsg.textTooLong n limit =>
      ("Text Too Long! Your input has ") ++ toString n ++
        (" characters, exceeding the limit of ") ++ toString limit ++
        (". Please summarize your expense details.")
  | OutMsg.captionTooLong n limit =>
      ("Caption Too Long! Your caption has ") ++ toString n ++
        (" characters, exceeding the limit of ") ++ toString limit ++
        (". Please shorten your description.")
  | OutMsg.inputError =>
      ("Input Error: Please send a bill image or write your expense.")
  | OutMsg.downloadError d =>
      ("File Download Error: Could not retrieve file from Telegram. Details: ") ++ d
  | OutMsg.extractionFailed d => ("Extraction Failed! Details: ") ++ d
  | OutMsg.expenseSaved c _ d =>
      ("Expense Saved! Category: ") ++ c ++ (" Description: ") ++ d
  | OutMsg.noExpenses p => ("No expenses found for the ") ++ p ++ (" period.")
  | OutMsg.report p _ _ => p ++ (" Expense Report")
  | OutMsg.reportError d =>
      ("Report Error: Failed to fetch data from Appwrite. Details: ") ++ d

/-! ### Concrete fixtures used by witnesses and counterexamples -/

/-- A benign oracle environment: downloads succeed, extraction returns a
well-formed Food expense, the store succeeds and holds no documents. -/
def env0 : Oracles :=
  { download_telegram_file := fun _ => Except.ok ()
    extract_expense_details := fun _ =>
      Except.ok ⟨some ("Food"), some ("Pizza"), some ("220.00")⟩
    create_document := fun _ => Except.ok ()
    list_documents := Except.ok []
    today := (2026, 10, 7)
    current_time := ("T") }

/-- A plain-text expense message. -/
def uPizza : Update := ⟨some ⟨some 7, some 7, some ("220 pizza"), none, none, none⟩⟩

/-- A message whose chat object is missing (raises `KeyError`). -/
def uNoChat : Update := ⟨some ⟨none, none, none, none, none, none⟩⟩

/-! ### Shared lemmas -/

/-- Every branch of `extract_and_save` records exactly one extraction
call with the given parts. -/
theorem extract_and_save_extracts_eq (env : Oracles) (uid : Int) (ct : String)
    (parts : List GPart) : (extract_and_save env uid ct parts).1.extracts = [parts] := by
  unfold extract_and_save
  repeat (first | rfl | split | dsimp only)

/-- `generate_report` never calls the extraction engine, never creates a
document, and never downloads a file. -/
theorem generate_report_effects (env : Oracles) (command : String) :
    (generate_report env command).1.creates = [] ∧
    (generate_report env command).1.extracts = [] ∧
    (generate_report env command).1.downloads = [] := by
  unfold generate_report
  cases env.list_documents with
  | error e => exact ⟨rfl, rfl, rfl⟩
  | ok expenses =>
    dsimp only
    split
    · exact ⟨rfl, rfl, rfl⟩
    · cases report_core expenses with
      | error e => exact ⟨rfl, rfl, rfl⟩
      | ok r => exact ⟨rfl, rfl, rfl⟩

/-- The effect log of the handler is the effect log of the try body. -/
theorem handle_effects_eq_body (env : Oracles) (update : Update) :
    (handle_telegram_webhook env update).1 = (webhook_body env update).1 := by
  unfold handle_telegram_webhook
  rcases webhook_body env update with ⟨eff, r⟩
  cases r <;> rfl

/-! ### Claims -/

/-- C7: for the weekly selector, whatever day "today" is, the window
start is the Monday of the current week at 00:00:00.000 (weekday 0,
zero microseconds, within the last 7 days), and the window end is today
at 23:59:59.999999, so end is at or after start and its date is today. -/
theorem weekly_window_monday (today : Nat × Nat × Nat) (h : 1 ≤ today.2.2) :
    weekday (get_query_time_range today ("/week")).1.days = 0 ∧
    (get_query_time_range today ("/week")).1.micros = 0 ∧
    (get_query_time_range today ("/week")).2.days = toOrdinal today ∧
    (get_query_time_range today ("/week")).2.micros = datetime_max_micros ∧
    (get_query_time_range today ("/week")).1.days ≤
      (get_query_time_range today ("/week")).2.days ∧
    toOrdinal today - (get_query_time_range today ("/week")).1.days =
      weekday (toOrdinal today) := by
  obtain ⟨y, m, d⟩ := today
  have ht : 1 ≤ toOrdinal (y, m, d) := by
    simp only [toOrdinal] at *
    omega
  have hrange : get_query_time_range (y, m, d) ("/week") =
      (⟨toOrdinal (y, m, d) - weekday (toOrdinal (y, m, d)), 0⟩,
        ⟨toOrdinal (y, m, d), datetime_max_micros⟩) := rfl
  rw [hrange]
  dsimp only
  unfold weekday
  refine ⟨by omega, rfl, rfl, rfl, by omega, by omega⟩

/-- Witness for C7 at the concrete date 2026-10-07 (a Wednesday). -/
theorem weekly_window_monday_witness :
    1 ≤ ((2026, 10, 7) : Nat × Nat × Nat).2.2 ∧
    (weekday (get_query_time_range ((2026, 10, 7)) ("/week")).1.days = 0 ∧
    (get_query_time_range ((2026, 10, 7)) ("/week")).1.micros = 0 ∧
    (get_query_time_range ((2026, 10, 7)) ("/week")).2.days = toOrdinal ((2026, 10, 7)) ∧
    (get_query_time_range ((2026, 10, 7)) ("/week")).2.micros = datetime_max_micros ∧
    (get_query_time_range ((2026, 10, 7)) ("/week")).1.days ≤
      (get_query_time_range ((2026, 10, 7)) ("/week")).2.days ∧
    toOrdinal ((2026, 10, 7)) - (get_query_time_range ((2026, 10, 7)) ("/week")).1.days =
      weekday (toOrdinal ((2026, 10, 7)))) :=
  ⟨by decide, weekly_window_monday (2026, 10, 7) (by decide)⟩

/-- C1: for every inbound update and every oracle behavior, the handler
returns a JSON acknowledgment body containing a status key, and when the
try body raised a fault the handler sends no further chat message beyond
those already sent by the body. -/
theorem webhook_always_acknowledges (env : Oracles) (update : Update) :
    ((ackBody (handle_telegram_webhook env update).2).lookup ("status")).isSome = true ∧
    (∀ e eff, webhook_body env update = (eff, Except.error e) →
      (handle_telegram_webhook env update).1.msgs = eff.msgs) := by
  constructor
  · rcases hwb : webhook_body env update with ⟨eff, r⟩
    cases r with
    | ok a =>
      cases a <;> simp [handle_telegram_webhook, hwb, ackBody, List.lookup]
    | error e => simp [handle_telegram_webhook, hwb, ackBody, List.lookup]
  · intro e eff hwb
    simp [handle_telegram_webhook, hwb]

/-- Witness for C1: a message whose chat object is missing makes the try
body fault with a `KeyError`; the handler still acknowledges and sends
no message. -/
theorem webhook_always_acknowledges_witness :
    ((ackBody (handle_telegram_webhook env0 uNoChat).2).lookup ("status")).isSome = true ∧
    (handle_telegram_webhook env0 uNoChat).1.msgs = Effects.empty.msgs :=
  ⟨(webhook_always_acknowledges env0 uNoChat).1,
    (webhook_always_acknowledges env0 uNoChat).2 (Fault.keyError ("chat")) Effects.empty rfl⟩

/-- Every branch of `extract_and_save` downloads nothing. -/
theorem extract_and_save_downloads_eq (env : Oracles) (uid : Int) (ct : String)
    (parts : List GPart) : (extract_and_save env uid ct parts).1.downloads = [] := by
  unfold extract_and_save
  repeat (first | rfl | split | dsimp only)

/-- `process_file` never emits the file-size rejection message. -/
theorem process_file_no_size_msg (env : Oracles) (uid : Int) (ct : String)
    (fid : String) (cap : Option String) (n : Nat) :
    OutMsg.fileTooLarge n ∉ (process_file env uid ct fid cap).1.msgs := by
  unfold process_file extract_and_save
  repeat' (first | split | dsimp only)
  all_goals simp

/-- With no caption, `process_file` downloads exactly the given file. -/
theorem process_file_downloads_none (env : Oracles) (uid : Int) (ct : String)
    (fid : String) : (process_file env uid ct fid none).1.downloads = [fid] := by
  unfold process_file
  cases env.download_telegram_file fid with
  | error e => rfl
  | ok u =>
    dsimp only
    rw [extract_and_save_downloads_eq]

/-- With no caption and a successful download, `process_file` invokes the
extraction engine on the image plus the default prompt. -/
theorem process_file_extracts_none (env : Oracles) (uid : Int) (ct : String)
    (fid : String) (hdl : env.download_telegram_file fid = Except.ok ()) :
    (process_file env uid ct fid none).1.extracts =
      [[GPart.image, GPart.text defaultPrompt]] := by
  unfold process_file
  rw [hdl]
  dsimp only
  rw [extract_and_save_extracts_eq]

/-- A 500-character text body (all letter a). -/
def s500 : String := String.mk (List.replicate 500 ('a'))

/-- A 501-character text body (all letter a). -/
def s501 : String := String.mk (List.replicate 501 ('a'))

/-- An update carrying the 500-character text. -/
def u500 : Update := ⟨some ⟨some 7, some 7, some s500, none, none, none⟩⟩

/-- An update carrying the 501-character text. -/
def u501 : Update := ⟨some ⟨some 7, some 7, some s501, none, none, none⟩⟩

/-- C9: a plain text body of exactly 500 characters is accepted as the
sole extraction input, while one of 501 characters is rejected before
any extraction attempt, with a length-error message carrying the
offending length 501 and the limit 500, both quoted in its rendering. -/
theorem text_length_boundary (env : Oracles) :
    s500.length = 500 ∧ s501.length = 501 ∧
    (handle_telegram_webhook env u500).1.extracts = [[GPart.text s500]] ∧
    (handle_telegram_webhook env u501).1.extracts = [] ∧
    (handle_telegram_webhook env u501).1.msgs = [OutMsg.textTooLong 501 500] ∧
    (∃ a b c : String, renderMsg (OutMsg.textTooLong 501 500) =
      a ++ toString (501 : Nat) ++ b ++ toString (500 : Nat) ++ c) := by
  have hred : webhook_body env u500 =
      extract_and_save env 7 env.current_time [GPart.text s500] := rfl
  have hred' : webhook_body env u501 =
      (⟨[OutMsg.textTooLong 501 500], [], [], []⟩, Except.ok Ack.ok) := rfl
  refine ⟨by decide, by decide, ?_, ?_, ?_, ?_⟩
  · rw [handle_effects_eq_body, hred, extract_and_save_extracts_eq]
  · rw [handle_effects_eq_body, hred']
  · rw [handle_effects_eq_body, hred']
  · exact ⟨("Text Too Long! Your input has "),
      (" characters, exceeding the limit of "),
      (". Please summarize your expense details."), rfl⟩

/-- C10: a photo or document attachment that declares no file size is
treated as size 0; it is never rejected for size, its download is
attempted, and on a successful download extraction proceeds with the
default prompt. -/
theorem missing_file_size_accepted (env : Oracles) (m : TgMessage)
    (pd : PhotoData) (cid uid : Int)
    (hc : m.chat_id = some cid) (hf : m.from_user_id = some uid)
    (ht : m.text = none) (hcap : m.caption = none)
    (hatt : (∃ photos, m.photo = some photos ∧ photos.getLast? = some pd) ∨
      (m.photo = none ∧ m.document = some pd))
    (hsize : pd.file_size = none) :
    (∀ n, OutMsg.fileTooLarge n ∉ (handle_telegram_webhook env ⟨some m⟩).1.msgs) ∧
    (handle_telegram_webhook env ⟨some m⟩).1.downloads = [pd.file_id] ∧
    (env.download_telegram_file pd.file_id = Except.ok () →
      (handle_telegram_webhook env ⟨some m⟩).1.extracts =
        [[GPart.image, GPart.text defaultPrompt]]) := by
  have hbody : webhook_body env ⟨some m⟩ =
      expense_input_branch env m uid env.current_time := by
    simp only [webhook_body, hc, hf, ht]
  have hinput : expense_input_branch env m uid env.current_time =
      process_file env uid env.current_time pd.file_id m.caption := by
    rcases hatt with ⟨photos, hp, hl⟩ | ⟨hpn, hd⟩
    · unfold expense_input_branch
      rw [hp]
      dsimp only
      rw [hl]
      dsimp only
      rw [hsize]
      dsimp only [Option.getD]
      rw [if_neg (by decide)]
    · unfold expense_input_branch
      rw [hpn]
      dsimp only
      rw [hd]
      dsimp only
      rw [hsize]
      dsimp only [Option.getD]
      rw [if_neg (by decide)]
  refine ⟨?_, ?_, ?_⟩
  · intro n
    rw [handle_effects_eq_body, hbody, hinput, hcap]
    exact process_file_no_size_msg env uid env.current_time pd.file_id none n
  · rw [handle_effects_eq_body, hbody, hinput, hcap]
    exact process_file_downloads_none env uid env.current_time pd.file_id
  · intro hdl
    rw [handle_effects_eq_body, hbody, hinput, hcap]
    exact process_file_extracts_none env uid env.current_time pd.file_id hdl

/-- A photo message whose single variant declares no file size. -/
def uPhotoNoSize : Update :=
  ⟨some ⟨some 7, some 7, none, some [⟨none, ("FID")⟩], none, none⟩⟩

/-- A document message whose attachment declares no file size. -/
def uDocNoSize : Update :=
  ⟨some ⟨some 7, some 7, none, none, some ⟨none, ("FID2")⟩, none⟩⟩

/-- Witness for C10: a photo message and a document message, both
without `file_size`, both downloaded and extracted. -/
theorem missing_file_size_accepted_witness :
    ((OutMsg.fileTooLarge 0 ∉ (handle_telegram_webhook env0 uPhotoNoSize).1.msgs) ∧
      (handle_telegram_webhook env0 uPhotoNoSize).1.downloads = [("FID")] ∧
      (handle_telegram_webhook env0 uPhotoNoSize).1.extracts =
        [[GPart.image, GPart.text defaultPrompt]]) ∧
    ((OutMsg.fileTooLarge 0 ∉ (handle_telegram_webhook env0 uDocNoSize).1.msgs) ∧
      (handle_telegram_webhook env0 uDocNoSize).1.downloads = [("FID2")] ∧
      (handle_telegram_webhook env0 uDocNoSize).1.extracts =
        [[GPart.image, GPart.text defaultPrompt]]) :=
  ⟨⟨(missing_file_size_accepted env0 ⟨some 7, some 7, none, some [⟨none, ("FID")⟩], none, none⟩
        ⟨none, ("FID")⟩ 7 7 rfl rfl rfl rfl (Or.inl ⟨[⟨none, ("FID")⟩], rfl, rfl⟩) rfl).1 0,
      (missing_file_size_accepted env0 ⟨some 7, some 7, none, some [⟨none, ("FID")⟩], none, none⟩
        ⟨none, ("FID")⟩ 7 7 rfl rfl rfl rfl (Or.inl ⟨[⟨none, ("FID")⟩], rfl, rfl⟩) rfl).2.1,
      (missing_file_size_accepted env0 ⟨some 7, some 7, none, some [⟨none, ("FID")⟩], none, none⟩
        ⟨none, ("FID")⟩ 7 7 rfl rfl rfl rfl (Or.inl ⟨[⟨none, ("FID")⟩], rfl, rfl⟩) rfl).2.2 rfl⟩,
    ⟨(missing_file_size_accepted env0 ⟨some 7, some 7, none, none, some ⟨none, ("FID2")⟩, none⟩
        ⟨none, ("FID2")⟩ 7 7 rfl rfl rfl rfl (Or.inr ⟨rfl, rfl⟩) rfl).1 0,
      (missing_file_size_accepted env0 ⟨some 7, some 7, none, none, some ⟨none, ("FID2")⟩, none⟩
        ⟨none, ("FID2")⟩ 7 7 rfl rfl rfl rfl (Or.inr ⟨rfl, rfl⟩) rfl).2.1,
      (missing_file_size_accepted env0 ⟨some 7, some 7, none, none, some ⟨none, ("FID2")⟩, none⟩
        ⟨none, ("FID2")⟩ 7 7 rfl rfl rfl rfl (Or.inr ⟨rfl, rfl⟩) rfl).2.2 rfl⟩⟩

/-- An update whose text is an unrecognized slash command. -/
def uSlashFoo : Update := ⟨some ⟨some 7, some 7, some ("/foo"), none, none, none⟩⟩

/-- An upper-case recognized report command. -/
def uWeekUpper : Update := ⟨some ⟨some 7, some 7, some ("/WEEK"), none, none, none⟩⟩

/-- C6 counterexample: the text starts with the command prefix, yet the
handler treats it as plain-text extraction input — the extraction engine
is invoked on it and (with a well-formed extraction) a persistence call
is even made. -/
theorem unknown_slash_command_extraction :
    pyStartsWith ("/foo") ("/") = true ∧
    (handle_telegram_webhook env0 uSlashFoo).1.extracts = [[GPart.text ("/foo")]] ∧
    (handle_telegram_webhook env0 uSlashFoo).1.creates ≠ [] := by
  refine ⟨rfl, ?_, ?_⟩
  · rw [handle_effects_eq_body]
    have hred : webhook_body env0 uSlashFoo =
        extract_and_save env0 7 env0.current_time [GPart.text ("/foo")] := rfl
    rw [hred, extract_and_save_extracts_eq]
  · decide

/-- C6 amended: a slash-prefixed text whose lower-casing is one of the
four recognized commands is routed to command handling: no extraction
call, no persistence call, no file download.  (An unrecognized slash
command instead falls through to the plain-text extraction path.) -/
theorem recognized_command_no_extraction (env : Oracles) (update : Update)
    (m : TgMessage) (t : String) (hm : update.message = some m)
    (ht : m.text = some t) (hs : pyStartsWith t ("/") = true)
    (hc : pyLower t = ("/start") ∨ pyLower t = ("/daily") ∨
      pyLower t = ("/week") ∨ pyLower t = ("/month")) :
    (handle_telegram_webhook env update).1.extracts = [] ∧
    (handle_telegram_webhook env update).1.creates = [] ∧
    (handle_telegram_webhook env update).1.downloads = [] := by
  rw [handle_effects_eq_body]
  unfold webhook_body
  rw [hm]
  try (dsimp only)
  cases m.chat_id with
  | none => exact ⟨rfl, rfl, rfl⟩
  | some cid =>
    try (dsimp only)
    cases m.from_user_id with
    | none => exact ⟨rfl, rfl, rfl⟩
    | some uid =>
      try (dsimp only)
      rw [ht]
      try (dsimp only)
      rw [hs]
      try (dsimp only)
      rcases hc with h1 | h2 | h3 | h4
      · rw [h1]
        rw [if_pos rfl]
        exact ⟨rfl, rfl, rfl⟩
      · rw [h2]
        rw [if_neg (show ¬ (("/daily" : String) = ("/start")) from by decide)]
        rw [if_pos (show (("/daily" : String) = ("/daily") ∨
          ("/daily" : String) = ("/week") ∨ ("/daily" : String) = ("/month")) from Or.inl rfl)]
        obtain ⟨g1, g2, g3⟩ := generate_report_effects env ("/daily")
        exact ⟨g2, g1, g3⟩
      · rw [h3]
        rw [if_neg (show ¬ (("/week" : String) = ("/start")) from by decide)]
        rw [if_pos (show (("/week" : String) = ("/daily") ∨
          ("/week" : String) = ("/week") ∨ ("/week" : String) = ("/month")) from Or.inr (Or.inl rfl))]
        obtain ⟨g1, g2, g3⟩ := generate_report_effects env ("/week")
        exact ⟨g2, g1, g3⟩
      · rw [h4]
        rw [if_neg (show ¬ (("/month" : String) = ("/start")) from by decide)]
        rw [if_pos (show (("/month" : String) = ("/daily") ∨
          ("/month" : String) = ("/week") ∨ ("/month" : String) = ("/month")) from Or.inr (Or.inr rfl))]
        obtain ⟨g1, g2, g3⟩ := generate_report_effects env ("/month")
        exact ⟨g2, g1, g3⟩

/-- Witness for the amended C6 on the concrete command /WEEK. -/
theorem recognized_command_no_extraction_witness :
    uWeekUpper.message = some ⟨some 7, some 7, some ("/WEEK"), none, none, none⟩ ∧
    pyStartsWith ("/WEEK") ("/") = true ∧
    pyLower ("/WEEK") = ("/week") ∧
    ((handle_telegram_webhook env0 uWeekUpper).1.extracts = [] ∧
      (handle_telegram_webhook env0 uWeekUpper).1.creates = [] ∧
      (handle_telegram_webhook env0 uWeekUpper).1.downloads = []) :=
  ⟨rfl, rfl, rfl,
    recognized_command_no_extraction env0 uWeekUpper
      ⟨some 7, some 7, some ("/WEEK"), none, none, none⟩ ("/WEEK")
      rfl rfl rfl (Or.inr (Or.inr (Or.inl rfl)))⟩

/-- When extraction answers `ed` with `ERROR` category, `extract_and_save`
only sends the extraction-failure message and creates nothing. -/
theorem extract_and_save_sentinel (env : Oracles) (uid : Int) (ct : String)
    (parts : List GPart) (ed : ExtractedDict)
    (hx : env.extract_expense_details parts = Except.ok ed)
    (hc : ed.Category = some ("ERROR")) :
    extract_and_save env uid ct parts =
      (⟨[OutMsg.extractionFailed (ed.Description.getD ("N/A"))], [], [], [parts]⟩,
        Except.ok Ack.ok) := by
  unfold extract_and_save
  rw [hx]
  try (dsimp only)
  rw [if_pos hc]

/-- `process_file` under an ERROR-sentinel extraction oracle. -/
theorem process_file_sentinel (env : Oracles) (uid : Int) (ct : String)
    (fid : String) (cap : Option String) (ed : ExtractedDict)
    (hx : ∀ parts, env.extract_expense_details parts = Except.ok ed)
    (hc : ed.Category = some ("ERROR")) :
    (process_file env uid ct fid cap).1.creates = [] ∧
    ((process_file env uid ct fid cap).1.extracts ≠ [] →
      (process_file env uid ct fid cap).1.msgs =
        [OutMsg.extractionFailed (ed.Description.getD ("N/A"))]) := by
  unfold process_file
  cases env.download_telegram_file fid with
  | error e => exact ⟨rfl, fun h => absurd rfl h⟩
  | ok u =>
    try (dsimp only)
    cases cap with
    | none =>
      rw [extract_and_save_sentinel env uid ct _ ed (hx _) hc]
      exact ⟨rfl, fun _ => rfl⟩
    | some caption =>
      try (dsimp only)
      split
      · exact ⟨rfl, fun h => absurd rfl h⟩
      · rw [extract_and_save_sentinel env uid ct _ ed (hx _) hc]
        exact ⟨rfl, fun _ => rfl⟩

/-- `expense_input_branch` under an ERROR-sentinel extraction oracle. -/
theorem expense_input_sentinel (env : Oracles) (m : TgMessage) (uid : Int)
    (ct : String) (ed : ExtractedDict)
    (hx : ∀ parts, env.extract_expense_details parts = Except.ok ed)
    (hc : ed.Category = some ("ERROR")) :
    (expense_input_branch env m uid ct).1.creates = [] ∧
    ((expense_input_branch env m uid ct).1.extracts ≠ [] →
      (expense_input_branch env m uid ct).1.msgs =
        [OutMsg.extractionFailed (ed.Description.getD ("N/A"))]) := by
  unfold expense_input_branch
  cases m.photo with
  | some photos =>
    try (dsimp only)
    cases photos.getLast? with
    | none => exact ⟨rfl, fun h => absurd rfl h⟩
    | some pd =>
      try (dsimp only)
      split
      · exact ⟨rfl, fun h => absurd rfl h⟩
      · exact process_file_sentinel env uid ct pd.file_id m.caption ed hx hc
  | none =>
    try (dsimp only)
    cases m.document with
    | some dd =>
      try (dsimp only)
      split
      · exact ⟨rfl, fun h => absurd rfl h⟩
      · exact process_file_sentinel env uid ct dd.file_id m.caption ed hx hc
    | none =>
      try (dsimp only)
      cases m.text with
      | some text_input =>
        try (dsimp only)
        split
        · exact ⟨rfl, fun h => absurd rfl h⟩
        · rw [extract_and_save_sentinel env uid ct _ ed (hx _) hc]
          exact ⟨rfl, fun _ => rfl⟩
      | none => exact ⟨rfl, fun h => absurd rfl h⟩

/-- C5: when the extraction engine returns the ERROR sentinel, no
persistence call is ever made and, whenever extraction was reached at
all, the single outbound chat message is the extraction-failure template
carrying the sentinel description. -/
theorem error_sentinel_no_persist (env : Oracles) (update : Update) (ed : ExtractedDict)
    (hx : ∀ parts, env.extract_expense_details parts = Except.ok ed)
    (hc : ed.Category = some ("ERROR")) :
    (handle_telegram_webhook env update).1.creates = [] ∧
    ((handle_telegram_webhook env update).1.extracts ≠ [] →
      (handle_telegram_webhook env update).1.msgs =
        [OutMsg.extractionFailed (ed.Description.getD ("N/A"))]) := by
  rw [handle_effects_eq_body]
  unfold webhook_body
  cases update.message with
  | none => exact ⟨rfl, fun h => absurd rfl h⟩
  | some m =>
    try (dsimp only)
    cases m.chat_id with
    | none => exact ⟨rfl, fun h => absurd rfl h⟩
    | some cid =>
      try (dsimp only)
      cases m.from_user_id with
      | none => exact ⟨rfl, fun h => absurd rfl h⟩
      | some uid =>
        try (dsimp only)
        cases m.text with
        | none => exact expense_input_sentinel env m uid env.current_time ed hx hc
        | some t =>
          try (dsimp only)
          by_cases hsw : pyStartsWith t ("/") = true
          · rw [if_pos hsw]
            try (dsimp only)
            by_cases h1 : pyLower t = ("/start")
            · rw [if_pos h1]
              exact ⟨rfl, fun h => absurd rfl h⟩
            · rw [if_neg h1]
              by_cases h2 : pyLower t = ("/daily") ∨ pyLower t = ("/week") ∨
                pyLower t = ("/month")
              · rw [if_pos h2]
                obtain ⟨g1, g2, g3⟩ := generate_report_effects env (pyLower t)
                exact ⟨g1, fun h => absurd g2 h⟩
              · rw [if_neg h2]
                exact expense_input_sentinel env m uid env.current_time ed hx hc
          · rw [if_neg hsw]
            exact expense_input_sentinel env m uid env.current_time ed hx hc

/-- The ERROR-sentinel extraction oracle with the fixed description from
the system instruction. -/
def envSentinel : Oracles :=
  { env0 with extract_expense_details := fun _ =>
      Except.ok ⟨some ("ERROR"), some ("Failed to process input."), some ("0.00")⟩ }

/-- Witness for C5: a plain-text expense under the sentinel oracle. -/
theorem error_sentinel_no_persist_witness :
    (∀ parts, envSentinel.extract_expense_details parts =
      Except.ok ⟨some ("ERROR"), some ("Failed to process input."), some ("0.00")⟩) ∧
    (handle_telegram_webhook envSentinel uPizza).1.creates = [] ∧
    (handle_telegram_webhook envSentinel uPizza).1.extracts ≠ [] ∧
    (handle_telegram_webhook envSentinel uPizza).1.msgs =
      [OutMsg.extractionFailed ("Failed to process input.")] :=
  ⟨fun _ => rfl,
    (error_sentinel_no_persist envSentinel uPizza _ (fun _ => rfl) rfl).1,
    by decide,
    (error_sentinel_no_persist envSentinel uPizza _ (fun _ => rfl) rfl).2 (by decide)⟩

/-- Extraction oracle returning a non-ERROR category with an amount
string that `float()` cannot parse. -/
def envBadAmount : Oracles :=
  { env0 with extract_expense_details := fun _ =>
      Except.ok ⟨some ("Food"), some ("Lunch"), some ("abc")⟩ }

/-- C2 evaluation at the failing input: with extraction result
Category Food, Amount abc, the `float()` conversion faults, the fault
reaches the top-level handler, no persistence call is made, and the
user receives no chat message at all — instead of the extraction-failure
message the claim (and the spec) require. -/
theorem bad_amount_reaches_unhandled_path :
    pyFloat? ("abc") = none ∧
    webhook_body envBadAmount uPizza =
      (⟨[], [], [], [[GPart.text ("220 pizza")]]⟩,
        Except.error (Fault.valueError ("abc"))) ∧
    (handle_telegram_webhook envBadAmount uPizza).1.msgs = [] ∧
    (handle_telegram_webhook envBadAmount uPizza).1.creates = [] ∧
    (handle_telegram_webhook envBadAmount uPizza).2 =
      Ack.error
        (("An unexpected error occurred: ValueError: could not convert string to float: abc")) :=
  ⟨rfl, rfl, rfl, rfl, rfl⟩

/-- Extraction oracle returning a category outside the seven enumerated
values together with a negative amount string. -/
def envMisc : Oracles :=
  { env0 with extract_expense_details := fun _ =>
      Except.ok ⟨some ("Misc"), some ("stuff"), some ("-5")⟩ }

/-- C3 counterexample: the orchestrator passes the repository a record
whose category is outside the seven enumerated values and whose amount
is negative — neither part of the data-model invariant is enforced. -/
theorem create_invariant_counterexample :
    (handle_telegram_webhook envMisc uPizza).1.creates =
      [{ telegram_user_id := 7, category := ("Misc"), description := ("stuff"),
         amount := -5, created_at := ("T") }] ∧
    (("Misc") ∉ sevenCategories) ∧ ¬ (0 ≤ (-5 : ℚ)) := by
  refine ⟨by decide, by decide, by decide⟩

/-- Provenance invariant of records passed to `create_document`: the
record is copied field by field from an actual answer of the extraction
oracle whose Category is not the ERROR sentinel — the category is the
answer Category, the description the answer Description, and the amount
the successful `float()` parse of the answer Amount string. -/
def CreatedFromExtraction (env : Oracles) (r : ExpenseData) : Prop :=
  ∃ parts ed, env.extract_expense_details parts = Except.ok ed ∧
    ed.Category = some r.category ∧ r.category ≠ ("ERROR") ∧
    ed.Description = some r.description ∧
    ∃ s, ed.Amount = some s ∧ pyFloat? s = some r.amount

/-- Any record handed to the store by `extract_and_save` is copied from
the extraction answer for the given parts. -/
theorem extract_and_save_creates_inv (env : Oracles) (uid : Int) (ct : String)
    (parts : List GPart) (r : ExpenseData)
    (hr : r ∈ (extract_and_save env uid ct parts).1.creates) :
    CreatedFromExtraction env r := by
  unfold extract_and_save at hr
  cases hx : env.extract_expense_details parts with
  | error e => rw [hx] at hr; simp at hr
  | ok ed =>
    rw [hx] at hr
    try (dsimp only at hr)
    by_cases hcE : ed.Category = some ("ERROR")
    · rw [if_pos hcE] at hr
      simp at hr
    · rw [if_neg hcE] at hr
      cases hcat : ed.Category with
      | none => rw [hcat] at hr; simp at hr
      | some category =>
        rw [hcat] at hr
        try (dsimp only at hr)
        cases hdesc : ed.Description with
        | none => rw [hdesc] at hr; simp at hr
        | some description =>
          rw [hdesc] at hr
          try (dsimp only at hr)
          cases hamt : ed.Amount with
          | none => rw [hamt] at hr; simp at hr
          | some amount_s =>
            rw [hamt] at hr
            try (dsimp only at hr)
            cases hpf : pyFloat? amount_s with
            | none => rw [hpf] at hr; simp at hr
            | some amount =>
              rw [hpf] at hr
              try (dsimp only at hr)
              have hreq : r = ExpenseData.mk uid category description amount ct := by
                cases hcd : env.create_document
                    (ExpenseData.mk uid category description amount ct) with
                | error e => rw [hcd] at hr; simpa using hr
                | ok u => rw [hcd] at hr; simpa using hr
              subst hreq
              refine ⟨parts, ed, hx, hcat, ?_, hdesc, amount_s, hamt, hpf⟩
              show ¬ category = ("ERROR")
              intro hcon
              rw [hcon] at hcat
              exact hcE hcat

/-- The creates-invariant lifted to `process_file`. -/
theorem process_file_creates_inv (env : Oracles) (uid : Int) (ct : String)
    (fid : String) (cap : Option String) (r : ExpenseData)
    (hr : r ∈ (process_file env uid ct fid cap).1.creates) :
    CreatedFromExtraction env r := by
  unfold process_file at hr
  repeat' (first | split at hr | dsimp only at hr)
  all_goals first
    | exact extract_and_save_creates_inv env uid ct _ r hr
    | simp_all

/-- The creates-invariant lifted to `expense_input_branch`. -/
theorem expense_input_creates_inv (env : Oracles) (m : TgMessage) (uid : Int)
    (ct : String) (r : ExpenseData)
    (hr : r ∈ (expense_input_branch env m uid ct).1.creates) :
    CreatedFromExtraction env r := by
  unfold expense_input_branch at hr
  repeat' (first | split at hr | dsimp only at hr)
  all_goals first
    | exact process_file_creates_inv env uid ct _ _ r hr
    | exact extract_and_save_creates_inv env uid ct _ r hr
    | simp_all [Effects.empty]

/-- C3 amended: every expense record passed to the repository create
operation is copied from an actual extraction-oracle answer: its
category equals the answer Category and is never the ERROR sentinel,
its description equals the answer Description, and its amount is the
successful `float()` parse of the answer Amount string; membership of
the seven enumerated categories and non-negativity of the amount are
not enforced by the orchestrator. -/
theorem create_record_invariant (env : Oracles) (update : Update) (r : ExpenseData)
    (hr : r ∈ (handle_telegram_webhook env update).1.creates) :
    CreatedFromExtraction env r := by
  rw [handle_effects_eq_body] at hr
  unfold webhook_body at hr
  repeat' (first | split at hr | dsimp only at hr)
  all_goals first
    | exact expense_input_creates_inv env _ _ env.current_time r hr
    | (rw [(generate_report_effects env _).1] at hr; simp_all)
    | simp_all [Effects.empty]

/-- Witness for the amended C3 on the benign environment. -/
theorem create_record_invariant_witness :
    ({ telegram_user_id := 7, category := ("Food"), description := ("Pizza"),
       amount := 220, created_at := ("T") } : ExpenseData) ∈
      (handle_telegram_webhook env0 uPizza).1.creates ∧
    CreatedFromExtraction env0
      { telegram_user_id := 7, category := ("Food"), description := ("Pizza"),
        amount := 220, created_at := ("T") } :=
  ⟨by decide,
    create_record_invariant env0 uPizza
      { telegram_user_id := 7, category := ("Food"), description := ("Pizza"),
        amount := 220, created_at := ("T") } (by decide)⟩

/-- `total_spent`, accumulated left to right, is the sum of the amounts. -/
theorem total_spent_of_eq_sum (expenses : List StoredExpense) :
    total_spent_of expenses = (expenses.map (fun e => e.amount)).sum := by
  suffices h : ∀ q : ℚ, expenses.foldl (fun t exp => t + exp.amount) q =
      q + (expenses.map (fun e => e.amount)).sum by
    simpa [total_spent_of] using h 0
  induction expenses with
  | nil => intro q; simp
  | cons e rest ih =>
    intro q
    simp only [List.foldl_cons, List.map_cons, List.sum_cons, ih]
    ring

/-- A store with one zero-amount Food record. -/
def envZeroTotal : Oracles :=
  { env0 with list_documents := Except.ok [⟨0, ("Food")⟩] }

/-- The recognized weekly report command. -/
def uWeekCmd : Update := ⟨some ⟨some 7, some 7, some ("/week"), none, none, none⟩⟩

/-- C4 counterexample: a non-empty record list whose single record has
amount 0 reaches aggregation with grand total 0, the percentage division
raises ZeroDivisionError, and the report handler answers with the
report-error message instead. -/
theorem zero_amount_report_divzero :
    ([(⟨0, ("Food")⟩ : StoredExpense)] ≠ []) ∧
    total_spent_of [⟨0, ("Food")⟩] = 0 ∧
    report_core [⟨0, ("Food")⟩] = Except.error Fault.zeroDivisionError ∧
    (handle_telegram_webhook envZeroTotal uWeekCmd).1.msgs =
      [OutMsg.reportError (("float division by zero"))] :=
  ⟨by decide, by decide, by decide, by decide⟩

/-- C4 amended: when every record amount is strictly positive, a
non-empty list has a strictly positive grand total and the percentage
division is defined (aggregation succeeds); an empty stored list
short-circuits to the no-expenses message and never reaches aggregation. -/
theorem positive_amounts_report_defined (env : Oracles) (command : String)
    (expenses : List StoredExpense) (hne : expenses ≠ [])
    (hpos : ∀ e ∈ expenses, 0 < e.amount) :
    (0 < total_spent_of expenses ∧
      ∃ lines, report_core expenses = Except.ok (total_spent_of expenses, lines)) ∧
    (env.list_documents = Except.ok [] →
      (generate_report env command).1.msgs =
        [OutMsg.noExpenses (capitalize (command.drop 1))]) := by
  have hpos' : 0 < total_spent_of expenses := by
    rw [total_spent_of_eq_sum]
    cases expenses with
    | nil => exact absurd rfl hne
    | cons e rest =>
      have h1 : 0 < e.amount := hpos e (List.mem_cons_self e rest)
      have h2 : 0 ≤ (rest.map (fun e => e.amount)).sum := by
        refine List.sum_nonneg ?_
        intro x hx
        obtain ⟨e2, he2, rfl⟩ := List.mem_map.mp hx
        exact le_of_lt (hpos e2 (List.mem_cons_of_mem _ he2))
      simp only [List.map_cons, List.sum_cons]
      linarith
  refine ⟨⟨hpos', ?_⟩, ?_⟩
  · unfold report_core
    dsimp only
    rw [if_neg (fun h => absurd h.2 (ne_of_gt hpos'))]
    exact ⟨_, rfl⟩
  · intro hld
    unfold generate_report
    rw [hld]
    simp

/-- Witness for the amended C4 on a single positive record. -/
theorem positive_amounts_report_defined_witness :
    ([(⟨5, ("Food")⟩ : StoredExpense)] ≠ []) ∧
    (∀ e ∈ [(⟨5, ("Food")⟩ : StoredExpense)], 0 < e.amount) ∧
    ((0 < total_spent_of [⟨5, ("Food")⟩] ∧
      ∃ lines, report_core [⟨5, ("Food")⟩] =
        Except.ok (total_spent_of [⟨5, ("Food")⟩], lines)) ∧
    (env0.list_documents = Except.ok [] →
      (generate_report env0 ("/week")).1.msgs =
        [OutMsg.noExpenses (capitalize (("/week").drop 1))])) :=
  ⟨by decide, by decide,
    positive_amounts_report_defined env0 ("/week") _ (by decide) (by decide)⟩

/-- One dict-accumulation step adds the new amount to the sum of the
accumulated values. -/
theorem addToTotals_snd_sum (m : List (String × ℚ)) (c : String) (a : ℚ) :
    ((addToTotals m c a).map Prod.snd).sum = (m.map Prod.snd).sum + a := by
  induction m with
  | nil => simp [addToTotals]
  | cons p rest ih =>
    obtain ⟨c2, v⟩ := p
    by_cases h : c2 = c
    · simp only [addToTotals, if_pos h, List.map_cons, List.sum_cons]
      ring
    · simp only [addToTotals, if_neg h, List.map_cons, List.sum_cons, ih]
      ring

/-- The accumulated per-category sums add up to the grand total. -/
theorem category_totals_snd_sum (expenses : List StoredExpense) :
    ((category_totals_of expenses).map Prod.snd).sum = total_spent_of expenses := by
  rw [total_spent_of_eq_sum]
  suffices h : ∀ m : List (String × ℚ),
      ((expenses.foldl (fun m exp => addToTotals m exp.category exp.amount) m).map
        Prod.snd).sum = (m.map Prod.snd).sum + (expenses.map (fun e => e.amount)).sum by
    simpa [category_totals_of] using h []
  induction expenses with
  | nil => intro m; simp
  | cons e rest ih =>
    intro m
    simp only [List.foldl_cons, List.map_cons, List.sum_cons]
    rw [ih, addToTotals_snd_sum]
    ring

/-- Sum of the percentage column over accumulated pairs. -/
theorem sum_map_pct (l : List (String × ℚ)) (T : ℚ) :
    (l.map (fun p => p.2 / T * 100)).sum = (l.map Prod.snd).sum / T * 100 := by
  induction l with
  | nil => simp
  | cons p rest ih =>
    simp only [List.map_cons, List.sum_cons, ih]
    ring

/-- C8 counterexample: a non-empty record list whose amounts cancel out
makes the aggregation fault on the percentage division, so no report with
subtotals or percentages is produced at all. -/
theorem zero_total_aggregation_fails :
    ([(⟨5, ("Food")⟩ : StoredExpense), ⟨-5, ("Travel")⟩] ≠ []) ∧
    report_core [⟨5, ("Food")⟩, ⟨-5, ("Travel")⟩] =
      Except.error Fault.zeroDivisionError :=
  ⟨by decide, by decide⟩

/-- C8 amended: for every non-empty record list with a nonzero grand
total, aggregation succeeds, the per-category subtotals sum exactly to
the grand total, the percentages sum exactly to 100, and the category
lines are in descending order of accumulated subtotal. -/
theorem report_sums_and_sorted (expenses : List StoredExpense)
    (hne : expenses ≠ []) (htot : total_spent_of expenses ≠ 0) :
    ∃ lines, report_core expenses = Except.ok (total_spent_of expenses, lines) ∧
      (lines.map (fun l => l.2.1)).sum = total_spent_of expenses ∧
      (lines.map (fun l => l.2.2)).sum = 100 ∧
      List.Sorted (fun a b : String × ℚ × ℚ => b.2.1 ≤ a.2.1) lines := by
  refine ⟨((category_totals_of expenses).insertionSort descBySum).map
      (fun p => (p.1, p.2, p.2 / total_spent_of expenses * 100)), ?_, ?_, ?_, ?_⟩
  · unfold report_core
    dsimp only
    rw [if_neg (fun h => absurd h.2 htot)]
  · rw [List.map_map]
    have hcomp : ((fun l : String × ℚ × ℚ => l.2.1) ∘ fun p : String × ℚ =>
        (p.1, p.2, p.2 / total_spent_of expenses * 100)) = Prod.snd := rfl
    rw [hcomp,
      List.Perm.sum_eq ((List.perm_insertionSort descBySum
        (category_totals_of expenses)).map Prod.snd)]
    exact category_totals_snd_sum expenses
  · rw [List.map_map]
    have hcomp : ((fun l : String × ℚ × ℚ => l.2.2) ∘ fun p : String × ℚ =>
        (p.1, p.2, p.2 / total_spent_of expenses * 100)) =
        (fun p : String × ℚ => p.2 / total_spent_of expenses * 100) := rfl
    rw [hcomp, sum_map_pct,
      List.Perm.sum_eq ((List.perm_insertionSort descBySum
        (category_totals_of expenses)).map Prod.snd),
      category_totals_snd_sum expenses, div_self htot, one_mul]
  · exact List.Pairwise.map _ (fun a b h => h)
      (List.sorted_insertionSort descBySum (category_totals_of expenses))

/-- Witness for the amended C8 on two positive records. -/
theorem report_sums_and_sorted_witness :
    ([(⟨5, ("Food")⟩ : StoredExpense), ⟨3, ("Travel")⟩] ≠ []) ∧
    total_spent_of [⟨5, ("Food")⟩, ⟨3, ("Travel")⟩] ≠ 0 ∧
    (∃ lines, report_core [⟨5, ("Food")⟩, ⟨3, ("Travel")⟩] =
        Except.ok (total_spent_of [⟨5, ("Food")⟩, ⟨3, ("Travel")⟩], lines) ∧
      (lines.map (fun l => l.2.1)).sum = total_spent_of [⟨5, ("Food")⟩, ⟨3, ("Travel")⟩] ∧
      (lines.map (fun l => l.2.2)).sum = 100 ∧
      List.Sorted (fun a b : String × ℚ × ℚ => b.2.1 ≤ a.2.1) lines) :=
  ⟨by decide, by decide, report_sums_and_sorted _ (by decide) (by decide)⟩

end ExpenseTracker
